import Mathlib

/-!
Shallow embedding of the Airweave sync-orchestration backend
(`backend/airweave/...`), covering the OAuth2 refresh service, the sync
factory wiring, the Temporal activity wrappers, the workflow-id scheme,
the file manager and the initial-DAG builder, together with theorems
checking the natural-language specification against this embedding.

Python dicts holding credential fields are modelled as association lists
with nullable (`Option String`) values, so that a key that is present but
bound to `None` is distinguished from an absent key, exactly as
`dict.get` distinguishes them.  External I/O (the token endpoint, the
database, encryption at rest) is passed in explicitly: the database is a
record of association tables threaded through state-passing style, and
encryption is a caller-supplied pair of functions.
-/

namespace Airweave

/-- Association-list lookup: first binding of the key, if any.  Models
`dict[k]` / `crud.get` style primary-key fetches. -/
def alist_get {κ α : Type} [DecidableEq κ] : List (κ × α) → κ → Option α
  | [], _ => none
  | (k', v) :: t, k => if k' = k then some v else alist_get t k

/-- Association-list update: replace the first binding of the key, or
append a fresh binding.  Models `dict[k] = v` and row updates. -/
def alist_set {κ α : Type} [DecidableEq κ] : List (κ × α) → κ → α → List (κ × α)
  | [], k, v => [(k, v)]
  | (k', v') :: t, k, v => if k' = k then (k, v) :: t else (k', v') :: alist_set t k v

/-- A Python dict of credential fields: string keys, nullable string values. -/
def CredDict : Type := List (String × Option String)

instance : DecidableEq CredDict := by
  unfold CredDict
  infer_instance

/-- Models Python `d.get(k, default)`: the stored value (possibly `None`)
when the key is present, the default otherwise. -/
def dict_get (m : CredDict) (k : String) (dflt : Option String) : Option String :=
  match alist_get m k with
  | none => dflt
  | some v => v

/-- Caller-supplied encryption at rest (out of scope of the core, see the
spec); `γ` is the ciphertext type. -/
structure EncDec (γ : Type) where
  encrypt : CredDict → γ
  decrypt : γ → CredDict

/-- `airweave.models.connection.Connection` as used by the factory and the
OAuth2 service: the credential link is nullable. -/
structure Connection where
  id : Nat
  short_name : String
  integration_credential_id : Option Nat
deriving DecidableEq, Repr

/-- `airweave.models.integration_credential.IntegrationCredential`,
restricted to the encrypted payload the refresh path touches. -/
structure IntegrationCredential (γ : Type) where
  encrypted_credentials : γ
deriving DecidableEq, Repr

/-- Source connection record fetched by `sync_id` (carries `config_fields`). -/
structure SourceConnectionRecord where
  config_fields : Option CredDict
deriving DecidableEq

/-- Auth types from `airweave.platform.auth.schemas.AuthType` (the schema
module is not under src/; the constructors are the members referenced by
the code plus the non-OAuth members named in the spec). -/
inductive AuthType
  | oauth2
  | oauth2_with_refresh
  | oauth2_with_refresh_rotating
  | api_key
  | config_class_auth
  | native_functionality
  | no_auth
deriving DecidableEq, Repr

/-- `schemas.Source` as consumed by the factory. -/
structure SourceModel where
  short_name : String
  auth_type : AuthType
  auth_config_class : Option String
deriving DecidableEq, Repr

/-- `schemas.Destination` row fetched by short name. -/
structure DestinationModel where
  short_name : String
  name : String
deriving DecidableEq, Repr

/-- Integration configuration returned by
`integration_settings.get_by_short_name` (`auth_type` is compared against
string literals in `services.py`, so it is kept as a string here). -/
structure IntegrationConfig where
  client_id : Option String
  client_secret : Option String
  auth_type : String
  content_type : String
  client_credential_location : String
  backend_url : String
deriving DecidableEq, Repr

/-- The database tables the modelled code reads and writes, as association
lists keyed like the corresponding CRUD lookups. -/
structure Db (γ : Type) where
  connections : List (Nat × Connection)
  source_connection_records : List (Nat × SourceConnectionRecord)
  sources : List (String × SourceModel)
  integration_credentials : List (Nat × IntegrationCredential γ)
  destinations : List (String × DestinationModel)
deriving DecidableEq

/-- White label configuration (`schemas.WhiteLabel`), the fields read by
the refresh path. -/
structure WhiteLabel where
  source_short_name : String
  client_id : Option String
  client_secret : Option String
deriving DecidableEq, Repr

/-- `airweave.platform.auth.schemas.OAuth2TokenResponse`, the fields the
refresh path reads. -/
structure OAuth2TokenResponse where
  access_token : String
  token_type : Option String
  expires_in : Option Nat
  refresh_token : Option String
  scope : Option String
deriving DecidableEq, Repr

/-- `OAuth2Service._get_refresh_token`: reads `refresh_token` out of the
decrypted credential; `if not refresh_token` treats a missing key, `None`
and the empty string as absent. -/
def get_refresh_token (decrypted_credential : CredDict) : Except String String :=
  match dict_get decrypted_credential "refresh_token" none with
  | none => Except.error "No refresh token found"
  | some t => if t = "" then Except.error "No refresh token found" else Except.ok t

/-- `OAuth2Service._get_integration_config`: fetch by short name, typed
not-found error otherwise. -/
def get_integration_config (integration_configs : List (String × IntegrationConfig))
    (integration_short_name : String) : Except String IntegrationConfig :=
  match alist_get integration_configs integration_short_name with
  | none => Except.error ("Configuration for " ++ integration_short_name ++ " not found")
  | some c => Except.ok c

/-- `OAuth2Service._get_client_credentials`: start from the integration
config defaults, override from `decrypted_credential` when present, then
override from `auth_fields` when present (the code applies
`decrypted_credential` first and `auth_fields` last, so `auth_fields`
wins). -/
def get_client_credentials (integration_config : IntegrationConfig)
    (auth_fields : Option CredDict) (decrypted_credential : Option CredDict) :
    Option String × Option String :=
  let client_id := integration_config.client_id
  let client_secret := integration_config.client_secret
  let client_id := match decrypted_credential with
    | some d => dict_get d "client_id" client_id
    | none => client_id
  let client_secret := match decrypted_credential with
    | some d => dict_get d "client_secret" client_secret
    | none => client_secret
  let client_id := match auth_fields with
    | some a => dict_get a "client_id" client_id
    | none => client_id
  let client_secret := match auth_fields with
    | some a => dict_get a "client_secret" client_secret
    | none => client_secret
  (client_id, client_secret)

/-- `OAuth2Service._handle_token_response`: on a rotating-refresh-token
integration, fetch the connection and its stored credential, decrypt it,
overwrite its `refresh_token` with the newly issued one, re-encrypt, and
write the credential row back before the token response is returned (the
returned database already carries the update); on every other auth type
the database is returned unchanged. -/
def handle_token_response {γ : Type} (ed : EncDec γ) (db : Db γ)
    (response : OAuth2TokenResponse) (integration_config : IntegrationConfig)
    (connection_id : Nat) : Except String (Db γ × OAuth2TokenResponse) :=
  if integration_config.auth_type = "oauth2_with_refresh_rotating" then
    match alist_get db.connections connection_id with
    | none => Except.error "connection lookup returned no row"
    | some connection =>
      match connection.integration_credential_id with
      | none => Except.error "connection has no integration credential"
      | some credential_id =>
        match alist_get db.integration_credentials credential_id with
        | none => Except.error "integration credential lookup returned no row"
        | some integration_credential =>
          let current_credentials := ed.decrypt integration_credential.encrypted_credentials
          let current_credentials :=
            alist_set current_credentials "refresh_token" response.refresh_token
          let encrypted_credentials := ed.encrypt current_credentials
          let updated_credential :=
            { integration_credential with
                encrypted_credentials := encrypted_credentials }
          let db' : Db γ :=
            { db with integration_credentials :=
                alist_set db.integration_credentials credential_id updated_credential }
          Except.ok (db', response)
  else
    Except.ok (db, response)

/-- `OAuth2Service.refresh_access_token`: validate the stored refresh
token, fetch the integration config, resolve client credentials (white
label overrides them when it matches the integration), perform the token
request (the endpoint's answer is passed in as `http_response`), then
handle the response, rotating the stored refresh token when configured. -/
def refresh_access_token {γ : Type} (ed : EncDec γ) (db : Db γ)
    (integration_configs : List (String × IntegrationConfig))
    (integration_short_name : String) (connection_id : Nat)
    (decrypted_credential : CredDict) (white_label : Option WhiteLabel)
    (http_response : Except String OAuth2TokenResponse) :
    Except String (Db γ × OAuth2TokenResponse) :=
  match get_refresh_token decrypted_credential with
  | Except.error e => Except.error e
  | Except.ok _refresh_token =>
    match get_integration_config integration_configs integration_short_name with
    | Except.error e => Except.error e
    | Except.ok integration_config =>
      let client_credentials :=
        get_client_credentials integration_config none (some decrypted_credential)
      let _client_credentials :=
        match white_label with
        | some wl =>
            if wl.source_short_name = integration_short_name then
              (wl.client_id, wl.client_secret)
            else client_credentials
        | none => client_credentials
      match http_response with
      | Except.error e => Except.error e
      | Except.ok response =>
        handle_token_response ed db response integration_config connection_id

/-- Errors surfaced by the sync factory: the typed not-found condition
(`NotFoundException`), the pydantic validation error raised by
`model_validate` on a `None` input, and Python's `IndexError`. -/
inductive FactoryError
  | not_found (msg : String)
  | validation_error (msg : String)
  | index_error (msg : String)
deriving DecidableEq, Repr

/-- `schemas.Sync`, the fields the factory reads. -/
structure SyncSchema where
  id : Nat
  source_connection_id : Nat
  destination_connection_ids : List Nat
deriving DecidableEq, Repr

/-- `SyncFactory._get_source_config`: resolve the source connection, the
source-connection record (by sync id) and the source model, raising a
typed not-found error for each missing row. -/
def get_source_config {γ : Type} (db : Db γ) (sync : SyncSchema) :
    Except FactoryError (Connection × CredDict × SourceModel) :=
  match alist_get db.connections sync.source_connection_id with
  | none => Except.error (FactoryError.not_found "Source connection not found")
  | some source_connection =>
    match alist_get db.source_connection_records sync.id with
    | none => Except.error (FactoryError.not_found "Source connection record not found")
    | some source_connection_obj =>
      let config_fields := source_connection_obj.config_fields.getD []
      match alist_get db.sources source_connection.short_name with
      | none =>
          Except.error
            (FactoryError.not_found ("Source not found: " ++ source_connection.short_name))
      | some source_model => Except.ok (source_connection, config_fields, source_model)

/-- `SyncFactory._get_integration_credential` together with the caller's
`if not source_connection.integration_credential_id` guard in
`_create_source_with_credentials`: both missing-link cases surface as
typed not-found errors. -/
def get_integration_credential {γ : Type} (db : Db γ) (source_connection : Connection) :
    Except FactoryError (IntegrationCredential γ) :=
  match source_connection.integration_credential_id with
  | none => Except.error (FactoryError.not_found "Source connection has no integration credential")
  | some credential_id =>
    match alist_get db.integration_credentials credential_id with
    | none => Except.error (FactoryError.not_found "Source integration credential not found")
    | some credential => Except.ok credential

/-- The token provider constructed by the factory
(`airweave.platform.auth.token_provider.TokenProvider` itself is not under
src/, so only the constructor arguments the factory passes are modelled). -/
structure TokenProvider where
  integration_short_name : String
  auth_context : Nat
  connection_id : Nat
  decrypted_credential : CredDict
  white_label : Option WhiteLabel
deriving DecidableEq

/-- `SyncFactory._create_token_provider_if_needed`: return `none` unless
the source's auth type is `oauth2_with_refresh` or
`oauth2_with_refresh_rotating`; otherwise build the provider. -/
def create_token_provider_if_needed (source_model : SourceModel) (auth_context : Nat)
    (source_connection : Connection) (decrypted_credential : CredDict)
    (white_label : Option WhiteLabel) : Option TokenProvider :=
  if source_model.auth_type ∉
      [AuthType.oauth2_with_refresh, AuthType.oauth2_with_refresh_rotating] then
    none
  else
    some { integration_short_name := source_model.short_name
           auth_context := auth_context
           connection_id := source_connection.id
           decrypted_credential := decrypted_credential
           white_label := white_label }

/-- The three shapes of credentials `SyncFactory._get_source_credentials`
can hand to `source_class.create`: a provider-fetched token, an auth
config validated against the source's declared config class, or the raw
decrypted credential. -/
inductive SourceCredentials
  | token (t : String)
  | auth_config (cls : String) (validated : CredDict)
  | raw (d : CredDict)
deriving DecidableEq

/-- `SyncFactory._get_source_credentials`: ask the token provider when
one was built; otherwise validate against the source's auth config class
when declared; otherwise pass the decrypted credential through.
`get_valid_token` stands for the provider's (external) token fetch. -/
def get_source_credentials (get_valid_token : TokenProvider → String)
    (token_provider : Option TokenProvider) (source_model : SourceModel)
    (decrypted_credential : CredDict) : SourceCredentials :=
  match token_provider with
  | some provider => SourceCredentials.token (get_valid_token provider)
  | none =>
    match source_model.auth_config_class with
    | some cls => SourceCredentials.auth_config cls decrypted_credential
    | none => SourceCredentials.raw decrypted_credential

/-- `Destination.model_validate` at the call site in
`_create_destination_instances`: pydantic raises a validation error when
handed `None`, and echoes the model otherwise. -/
def destination_model_validate (destination_model : Option DestinationModel) :
    Except FactoryError DestinationModel :=
  match destination_model with
  | none =>
      Except.error
        (FactoryError.validation_error "Destination.model_validate received None")
  | some m => Except.ok m

/-- A constructed destination instance (`destination_class.create`). -/
structure DestinationInstance where
  short_name : String
  collection_id : Nat
deriving DecidableEq, Repr

/-- `SyncFactory._create_destination_instances`, line for line: take the
first destination connection id, resolve the connection (typed not-found
error), fetch the destination model by short name, call
`Destination.model_validate` on it, and only afterwards test the model
for `None` (the source's not-found raise for a missing destination model
sits after the `model_validate` call, so it can never fire). -/
def create_destination_instances {γ : Type} (db : Db γ) (sync : SyncSchema)
    (collection_id : Nat) : Except FactoryError (List DestinationInstance) :=
  match sync.destination_connection_ids with
  | [] => Except.error (FactoryError.index_error "list index out of range")
  | destination_connection_id :: _ =>
    match alist_get db.connections destination_connection_id with
    | none => Except.error (FactoryError.not_found "Destination connection not found")
    | some destination_connection =>
      let destination_model := alist_get db.destinations destination_connection.short_name
      match destination_model_validate destination_model with
      | Except.error e => Except.error e
      | Except.ok destination_schema =>
        if destination_model = none then
          Except.error
            (FactoryError.not_found
              ("Destination not found for connection " ++ destination_connection.short_name))
        else
          Except.ok [{ short_name := destination_schema.short_name
                       collection_id := collection_id }]

/-- `TemporalService.run_source_connection_workflow`'s deterministic
workflow identifier for a sync job. -/
def run_workflow_id (sync_job_id : String) : String :=
  "sync-" ++ sync_job_id

/-- `TemporalService.cancel_sync_job_workflow`'s workflow identifier for
the job to cancel. -/
def cancel_workflow_id (sync_job_id : String) : String :=
  "sync-" ++ sync_job_id

/-- A metadata value written by the file manager: an error string or the
recorded byte count. -/
inductive MetaVal
  | str (s : String)
  | num (n : Nat)
deriving DecidableEq, Repr

/-- `airweave.platform.entities._base.FileEntity`, the fields
`FileManager.handle_file_entity` reads and writes.  File bytes are `Nat`s. -/
structure FileEntity where
  name : String
  download_url : Option String
  should_skip : Bool
  checksum : Option String
  local_path : Option String
  file_uuid : Option Nat
  total_size : Option Nat
  metadata : List (String × MetaVal)
deriving DecidableEq, Repr

/-- `FileManager._safe_filename`: keep alphanumerics and `._- `, then
strip surrounding whitespace. -/
def safe_filename (filename : String) : String :=
  (String.mk (filename.toList.filter
    (fun c => c.isAlphanum || c = '.' || c = '_' || c = '-' || c = ' '))).trim

/-- Outcome of the chunk loop in `handle_file_entity`: either the
cumulative size crossed the limit (carrying the size observed at that
point) or every chunk was written (carrying the final cumulative size and
the bytes on disk). -/
inductive DownloadResult
  | exceeded (size : Nat)
  | completed (downloaded_size : Nat) (written : List Nat)
deriving DecidableEq, Repr

/-- The `async for chunk in stream` loop of `handle_file_entity`: add the
chunk's length to the running size, abort as soon as the running size
strictly exceeds `max_size` (the offending chunk is not written), else
append the chunk to the file and continue. -/
def download_chunks (max_size : Nat) :
    Nat → List Nat → List (List Nat) → DownloadResult
  | downloaded_size, written, [] => DownloadResult.completed downloaded_size written
  | downloaded_size, written, chunk :: rest =>
    let downloaded_size := downloaded_size + chunk.length
    if max_size < downloaded_size then DownloadResult.exceeded downloaded_size
    else download_chunks max_size downloaded_size (written ++ chunk) rest

/-- `FileManager.handle_file_entity`: no-op without a download URL;
otherwise clear `should_skip`, run the chunk loop, and either (over the
limit) delete the partial file, record the error and the exceeded size in
the metadata and return the entity with `should_skip = true`, or (within
the limit) fill in checksum (`sha256hex` of the saved bytes), local path,
file uuid and the actual downloaded size.  The second component is the
temporary file's content, `none` when no file remains on disk. -/
def handle_file_entity (sha256hex : List Nat → String) (file_uuid : Nat)
    (entity : FileEntity) (stream : List (List Nat)) (max_size : Nat) :
    FileEntity × Option (List Nat) :=
  if entity.download_url = none ∨ entity.download_url = some "" then
    (entity, none)
  else
    let entity := { entity with should_skip := false }
    match download_chunks max_size 0 [] stream with
    | DownloadResult.exceeded size =>
      let metadata := entity.metadata
      let metadata := alist_set metadata "error" (MetaVal.str "File too large (exceeded limit)")
      let metadata := alist_set metadata "size_exceeded" (MetaVal.num size)
      ({ entity with metadata := metadata, should_skip := true }, none)
    | DownloadResult.completed downloaded_size written =>
      ({ entity with
          checksum := some (sha256hex written)
          local_path :=
            some ("/tmp/airweave/" ++ toString file_uuid ++ "-" ++ safe_filename entity.name)
          file_uuid := some file_uuid
          total_size := some downloaded_size }, some written)

/-- `app.schemas.dag.DagNodeCreate`, the fields `create_initial_dag`
fills in (`config_is_file` models the `config = {"type": "file"}` marker
on the synthetic file entity node). -/
structure DagNodeCreate where
  id : Nat
  type : String
  name : String
  connection_id : Option Nat
  entity_definition_id : Option Nat
  config_is_file : Bool
deriving DecidableEq, Repr

/-- `app.schemas.dag.DagEdgeCreate`. -/
structure DagEdgeCreate where
  from_node_id : Nat
  to_node_id : Nat
deriving DecidableEq, Repr

/-- An entity definition row (`crud.entity_definition`), the fields the
DAG builder reads. -/
structure EntityDefinition where
  id : Nat
  name : String
deriving DecidableEq, Repr

/-- Substring test on character lists: the needle is a prefix here or
occurs further right (an empty needle always occurs). -/
def chars_contains_sub : List Char → List Char → Bool
  | _, [] => true
  | [], _ :: _ => false
  | c :: rest, sub => sub.isPrefixOf (c :: rest) || chars_contains_sub rest sub

/-- Python's substring test `sub in s`. -/
def str_contains_sub (s sub : String) : Bool :=
  chars_contains_sub s.toList sub.toList

/-- The entity-node loop of `create_initial_dag`: one fresh id per entity
definition (consumed even for skipped definitions, mirroring the
`uuid4()` call before the `continue`), skipping definitions whose name
contains `Workspace` or `Comment`, and pairing every added node with a
source→entity edge.  Returns the nodes, the edges and the next fresh id. -/
def entity_nodes_and_edges (source_node_id : Nat) :
    List EntityDefinition → Nat → List DagNodeCreate × List DagEdgeCreate × Nat
  | [], counter => ([], [], counter)
  | ed :: rest, counter =>
    let entity_node_id := counter
    let counter := counter + 1
    if str_contains_sub ed.name "Workspace" || str_contains_sub ed.name "Comment" then
      entity_nodes_and_edges source_node_id rest counter
    else
      let rest_result := entity_nodes_and_edges source_node_id rest counter
      ({ id := entity_node_id, type := "entity", name := ed.name, connection_id := none,
         entity_definition_id := some ed.id, config_is_file := false } :: rest_result.1,
       { from_node_id := source_node_id, to_node_id := entity_node_id } :: rest_result.2.1,
       rest_result.2.2)

/-- The DAG assembled by `DagService.create_initial_dag`, with the two
locals the builder keeps for the endpoints. -/
structure InitialDag where
  nodes : List DagNodeCreate
  edges : List DagEdgeCreate
  source_node_id : Nat
  destination_node_id : Nat
deriving DecidableEq, Repr

/-- `DagService.create_initial_dag`: source node first, then the entity
nodes from the source's entity definitions (each with a source→entity
edge), then the synthetic `AsanaPDF` file entity node (with its
source→file edge), then the destination node (from the sync's destination
connection, or the native default); finally every node strictly between
the source and the destination gets an edge to the destination.  Fresh
`uuid4()` identifiers are modelled by a counter. -/
def create_initial_dag (entity_definitions : List EntityDefinition)
    (source_connection_id : Nat) (source_name : String)
    (destination : Option (Nat × String)) : InitialDag :=
  let source_node_id := 0
  let source_node : DagNodeCreate :=
    { id := source_node_id, type := "source", name := source_name,
      connection_id := some source_connection_id, entity_definition_id := none,
      config_is_file := false }
  let loop_result := entity_nodes_and_edges source_node_id entity_definitions 1
  let entity_nodes := loop_result.1
  let source_edges := loop_result.2.1
  let counter := loop_result.2.2
  let file_entity_node_id := counter
  let file_entity_node : DagNodeCreate :=
    { id := file_entity_node_id, type := "entity", name := "AsanaPDF",
      connection_id := none, entity_definition_id := none, config_is_file := true }
  let destination_node_id := counter + 1
  let destination_node : DagNodeCreate :=
    match destination with
    | some (conn_id, dest_name) =>
      { id := destination_node_id, type := "destination", name := dest_name,
        connection_id := some conn_id, entity_definition_id := none, config_is_file := false }
    | none =>
      { id := destination_node_id, type := "destination", name := "Native Weaviate",
        connection_id := none, entity_definition_id := none, config_is_file := false }
  let nodes := source_node :: ((entity_nodes ++ [file_entity_node]) ++ [destination_node])
  let edges := source_edges ++
    [{ from_node_id := source_node_id, to_node_id := file_entity_node_id }]
  let middle := (nodes.drop 1).dropLast
  let destination_edges := middle.map
    (fun node => { from_node_id := node.id, to_node_id := destination_node_id })
  { nodes := nodes, edges := edges ++ destination_edges,
    source_node_id := source_node_id, destination_node_id := destination_node_id }

/-- `airweave.core.shared_models.SyncJobStatus`, the states the activity
code writes and the spec's job state machine names. -/
inductive SyncJobStatus
  | pending
  | in_progress
  | completed
  | failed
  | cancelled
deriving DecidableEq, Repr

/-- Observable steps of `run_sync_activity` and
`mark_sync_job_cancelled_activity`, in program order. -/
inductive ActivityEvent
  | start_sync_task
  | heartbeat
  | cancel_inner_task
  | await_inner_task
  | update_status (s : SyncJobStatus)
deriving DecidableEq, Repr

/-- The engine-side fate of the background sync task as the supervising
loop sees it: it finishes (normally or with an error) during the wait
following `n` one-second timeouts, leaving the job in the status the
inner `sync_service.run` wrote, or the activity receives the engine's
cancellation during that wait. -/
inductive SyncTaskOutcome
  | completes (n : Nat) (inner_status : SyncJobStatus)
  | fails (n : Nat) (inner_status : SyncJobStatus)
  | cancelled_after (n : Nat)
deriving DecidableEq, Repr

/-- The `while True` supervising loop of `run_sync_activity`: each
elapsed one-second timeout emits exactly one heartbeat and loops; the
loop body emits nothing else, and stops at the wait during which the task
completes, fails or the cancellation signal arrives. -/
def supervise_loop : SyncTaskOutcome → List ActivityEvent
  | SyncTaskOutcome.completes 0 _ => []
  | SyncTaskOutcome.completes (n + 1) s =>
      ActivityEvent.heartbeat :: supervise_loop (SyncTaskOutcome.completes n s)
  | SyncTaskOutcome.fails 0 _ => []
  | SyncTaskOutcome.fails (n + 1) s =>
      ActivityEvent.heartbeat :: supervise_loop (SyncTaskOutcome.fails n s)
  | SyncTaskOutcome.cancelled_after 0 => []
  | SyncTaskOutcome.cancelled_after (n + 1) =>
      ActivityEvent.heartbeat :: supervise_loop (SyncTaskOutcome.cancelled_after n)

/-- How `run_sync_activity` hands control back to the engine. -/
inductive ActivityExit
  | returned
  | raised_error
  | raised_cancelled
deriving DecidableEq, Repr

/-- `run_sync_activity`: start the sync task, supervise it with the
heartbeating loop, and on `asyncio.CancelledError` cancel the inner task,
await it, update the job to `CANCELLED` and re-raise; on normal
completion return, on an inner exception re-raise it (the job status then
is whatever the inner run wrote).  Result: final job status, event trace,
exit mode. -/
def run_sync_activity (outcome : SyncTaskOutcome) :
    SyncJobStatus × List ActivityEvent × ActivityExit :=
  let events := ActivityEvent.start_sync_task :: supervise_loop outcome
  match outcome with
  | SyncTaskOutcome.completes _ s => (s, events, ActivityExit.returned)
  | SyncTaskOutcome.fails _ s => (s, events, ActivityExit.raised_error)
  | SyncTaskOutcome.cancelled_after _ =>
      (SyncJobStatus.cancelled,
       events ++ [ActivityEvent.cancel_inner_task, ActivityEvent.await_inner_task,
                  ActivityEvent.update_status SyncJobStatus.cancelled],
       ActivityExit.raised_cancelled)

/-- `mark_sync_job_cancelled_activity` (the pre-start cancel path): a
single status update to `CANCELLED`; the orchestrator is never started. -/
def mark_sync_job_cancelled_activity (_reason : Option String) :
    SyncJobStatus × List ActivityEvent :=
  (SyncJobStatus.cancelled, [ActivityEvent.update_status SyncJobStatus.cancelled])

/-- `max_wait_time` in `create_sync_job_activity` (one hour, seconds). -/
def max_wait_time : Nat := 60 * 60

/-- `wait_interval` in `create_sync_job_activity` (seconds). -/
def wait_interval : Nat := 30

/-- Observable steps of `create_sync_job_activity`: the heartbeat sent at
the top of each wait iteration (tagged with `total_waited` at that
point), and the job creation. -/
inductive JobEvent
  | heartbeat_waiting (total_waited : Nat)
  | create_job
deriving DecidableEq, Repr

/-- The `while total_waited < max_wait_time` loop of
`create_sync_job_activity`: heartbeat, sleep `wait_interval`, bump
`total_waited`, re-check for PENDING/IN_PROGRESS jobs; break with the
elapsed time when none remain, run out of fuel (the loop's `else`) when
they never clear.  `still_running t` is the database's answer at the
check performed when `total_waited = t`. -/
def wait_for_running_jobs (still_running : Nat → Bool) :
    Nat → Nat → List JobEvent × Option Nat
  | 0, _ => ([], none)
  | iters + 1, total_waited =>
    let ev := JobEvent.heartbeat_waiting total_waited
    let total_waited' := total_waited + wait_interval
    if still_running total_waited' then
      let rest := wait_for_running_jobs still_running iters total_waited'
      (ev :: rest.1, rest.2)
    else
      ([ev], some total_waited')

/-- `create_sync_job_activity`: if a PENDING/IN_PROGRESS job exists at
the initial fetch, either raise (regular run) or, for a forced full sync,
wait for the running jobs with the heartbeating loop — creating the job
after the first check that finds none, and raising after the one-hour
budget (`max_wait_time / wait_interval` iterations) is exhausted; with no
running job the new sync job is created immediately. -/
def create_sync_job_activity (still_running : Nat → Bool) (force_full_sync : Bool) :
    List JobEvent × Except String Unit :=
  if still_running 0 then
    if force_full_sync then
      let rest := wait_for_running_jobs still_running (max_wait_time / wait_interval) 0
      match rest.2 with
      | some _ => (rest.1 ++ [JobEvent.create_job], Except.ok ())
      | none =>
          (rest.1, Except.error "Timeout waiting for running jobs to complete after 3600s")
    else
      ([], Except.error "Sync already has a running job. Skipping this scheduled run to avoid conflicts.")
  else
    ([JobEvent.create_job], Except.ok ())

/-- Identity encryption, used to instantiate the abstract
encryption-at-rest pair on concrete examples. -/
def id_encdec : EncDec CredDict :=
  { encrypt := fun c => c, decrypt := fun c => c }

/-- Example connection row: id 1, short name `asana`, credential row 2. -/
def ex_connection : Connection :=
  { id := 1, short_name := "asana", integration_credential_id := some 2 }

/-- Example stored integration credential holding an old refresh token. -/
def ex_credential : IntegrationCredential CredDict :=
  { encrypted_credentials := [("refresh_token", some "old_refresh")] }

/-- Example database for the refresh-rotation scenario. -/
def ex_db : Db CredDict :=
  { connections := [(1, ex_connection)]
    source_connection_records := []
    sources := []
    integration_credentials := [(2, ex_credential)]
    destinations := [] }

/-- The example database after a rotating refresh stored the new token. -/
def ex_db_after : Db CredDict :=
  { ex_db with integration_credentials :=
      [(2, { encrypted_credentials := [("refresh_token", some "new_refresh")] })] }

/-- Example integration config with rotating refresh tokens. -/
def ex_cfg_rotating : IntegrationConfig :=
  { client_id := some "cid", client_secret := some "cs"
    auth_type := "oauth2_with_refresh_rotating"
    content_type := "application/x-www-form-urlencoded"
    client_credential_location := "body"
    backend_url := "https://provider.example/token" }

/-- Example token-endpoint response carrying a newly issued refresh token. -/
def ex_resp : OAuth2TokenResponse :=
  { access_token := "new_access", token_type := some "bearer"
    expires_in := some 3600, refresh_token := some "new_refresh", scope := none }

/-- Example decrypted credential holding the old refresh token. -/
def ex_cred : CredDict := [("refresh_token", some "old_refresh")]

/-- Example database whose destination connection exists but whose
destination model (by short name) is absent. -/
def ex_c5_db : Db CredDict :=
  { connections := [(9, { id := 9, short_name := "qdrant", integration_credential_id := none })]
    source_connection_records := []
    sources := []
    integration_credentials := []
    destinations := [] }

/-- Example sync pointing at destination connection 9. -/
def ex_c5_sync : SyncSchema :=
  { id := 4, source_connection_id := 3, destination_connection_ids := [9] }

/-- Example hash standing in for the SHA-256 hex digest on witnesses. -/
def ex_sha (bytes : List Nat) : String :=
  "digest-" ++ toString bytes.length

/-- Example file entity with a download URL. -/
def ex_file_entity : FileEntity :=
  { name := "report.pdf", download_url := some "https://files.example/report.pdf"
    should_skip := false, checksum := none, local_path := none
    file_uuid := none, total_size := none, metadata := [] }

theorem alist_get_set_self {κ α : Type} [DecidableEq κ] (m : List (κ × α)) (k : κ) (v : α) :
    alist_get (alist_set m k v) k = some v := by
  induction m with
  | nil => simp [alist_set, alist_get]
  | cons p t ih =>
    obtain ⟨k', v'⟩ := p
    by_cases h : k' = k <;> simp [alist_set, alist_get, h, ih]

theorem alist_get_set_ne {κ α : Type} [DecidableEq κ] (m : List (κ × α)) (k k' : κ) (v : α)
    (h : k' ≠ k) : alist_get (alist_set m k' v) k = alist_get m k := by
  induction m with
  | nil => simp [alist_set, alist_get, h]
  | cons p t ih =>
    obtain ⟨k'', v''⟩ := p
    by_cases h2 : k'' = k' <;> simp [alist_set, alist_get, h, h2, ih]

theorem supervise_loop_completes (n : Nat) (s : SyncJobStatus) :
    supervise_loop (SyncTaskOutcome.completes n s) =
      List.replicate n ActivityEvent.heartbeat := by
  induction n with
  | zero => simp [supervise_loop]
  | succ n ih => simp [supervise_loop, ih, List.replicate_succ]

theorem supervise_loop_fails (n : Nat) (s : SyncJobStatus) :
    supervise_loop (SyncTaskOutcome.fails n s) =
      List.replicate n ActivityEvent.heartbeat := by
  induction n with
  | zero => simp [supervise_loop]
  | succ n ih => simp [supervise_loop, ih, List.replicate_succ]

theorem supervise_loop_cancelled (n : Nat) :
    supervise_loop (SyncTaskOutcome.cancelled_after n) =
      List.replicate n ActivityEvent.heartbeat := by
  induction n with
  | zero => simp [supervise_loop]
  | succ n ih => simp [supervise_loop, ih, List.replicate_succ]

/-- Claim C1: whenever cancellation reaches `run_sync_activity`, the
activity's `CancelledError` handler leaves the sync job in the terminal
state `CANCELLED` — never `IN_PROGRESS` — by cancelling the inner sync
task, awaiting it, and updating the job status to `CANCELLED` as the very
last events before re-raising; and the pre-start path
`mark_sync_job_cancelled_activity` marks the job `CANCELLED` without ever
starting the sync task. -/
theorem run_sync_cancellation_leaves_job_cancelled (n : Nat) (reason : Option String) :
    (run_sync_activity (SyncTaskOutcome.cancelled_after n)).1 = SyncJobStatus.cancelled ∧
    (run_sync_activity (SyncTaskOutcome.cancelled_after n)).1 ≠ SyncJobStatus.in_progress ∧
    (run_sync_activity (SyncTaskOutcome.cancelled_after n)).2.2 =
      ActivityExit.raised_cancelled ∧
    (∃ p, (run_sync_activity (SyncTaskOutcome.cancelled_after n)).2.1 =
        p ++ [ActivityEvent.cancel_inner_task, ActivityEvent.await_inner_task,
              ActivityEvent.update_status SyncJobStatus.cancelled]) ∧
    (mark_sync_job_cancelled_activity reason).1 = SyncJobStatus.cancelled ∧
    ActivityEvent.start_sync_task ∉ (mark_sync_job_cancelled_activity reason).2 := by
  refine ⟨rfl, by simp [run_sync_activity], rfl, ?_, rfl, by simp [mark_sync_job_cancelled_activity]⟩
  exact ⟨ActivityEvent.start_sync_task ::
    supervise_loop (SyncTaskOutcome.cancelled_after n), rfl⟩

/-- Claim C3: while the background sync task runs, the supervising loop
of `run_sync_activity` emits exactly one heartbeat per elapsed one-second
wait timeout; it stops as soon as the task completes, the task fails, or
cancellation arrives, and no heartbeat follows the terminating event (the
cancellation tail holds only the teardown events). -/
theorem run_sync_heartbeat_trace (n : Nat) (s : SyncJobStatus) :
    (run_sync_activity (SyncTaskOutcome.completes n s)).2.1 =
      ActivityEvent.start_sync_task :: List.replicate n ActivityEvent.heartbeat ∧
    (run_sync_activity (SyncTaskOutcome.fails n s)).2.1 =
      ActivityEvent.start_sync_task :: List.replicate n ActivityEvent.heartbeat ∧
    (run_sync_activity (SyncTaskOutcome.cancelled_after n)).2.1 =
      (ActivityEvent.start_sync_task :: List.replicate n ActivityEvent.heartbeat) ++
        [ActivityEvent.cancel_inner_task, ActivityEvent.await_inner_task,
         ActivityEvent.update_status SyncJobStatus.cancelled] ∧
    ActivityEvent.heartbeat ∉
      [ActivityEvent.cancel_inner_task, ActivityEvent.await_inner_task,
       ActivityEvent.update_status SyncJobStatus.cancelled] := by
  refine ⟨?_, ?_, ?_, by simp⟩
  · simp [run_sync_activity, supervise_loop_completes]
  · simp [run_sync_activity, supervise_loop_fails]
  · simp [run_sync_activity, supervise_loop_cancelled]

/-- Claim C8: the workflow identifier used to start a sync job's run and
the one used to cancel it are the same deterministic string
`sync-<sync_job_id>`. -/
theorem workflow_id_deterministic (sync_job_id : String) :
    run_workflow_id sync_job_id = cancel_workflow_id sync_job_id ∧
    run_workflow_id sync_job_id = "sync-" ++ sync_job_id :=
  ⟨rfl, rfl⟩

/-- Claim C10: `_get_client_credentials` resolves the client id and
secret with `auth_fields` taking precedence over `decrypted_credential`,
which takes precedence over the integration config defaults: a key
present in `auth_fields` wins outright, a key absent there falls back to
`decrypted_credential`, and a key absent from both falls back to the
integration config. -/
theorem client_credentials_auth_fields_win (cfg : IntegrationConfig) (a d : CredDict) :
    (∀ v, alist_get a "client_id" = some v →
      (get_client_credentials cfg (some a) (some d)).1 = v) ∧
    (∀ v, alist_get a "client_secret" = some v →
      (get_client_credentials cfg (some a) (some d)).2 = v) ∧
    (∀ w, alist_get a "client_id" = none → alist_get d "client_id" = some w →
      (get_client_credentials cfg (some a) (some d)).1 = w) ∧
    (∀ w, alist_get a "client_secret" = none → alist_get d "client_secret" = some w →
      (get_client_credentials cfg (some a) (some d)).2 = w) ∧
    (alist_get a "client_id" = none → alist_get d "client_id" = none →
      (get_client_credentials cfg (some a) (some d)).1 = cfg.client_id) ∧
    (alist_get a "client_secret" = none → alist_get d "client_secret" = none →
      (get_client_credentials cfg (some a) (some d)).2 = cfg.client_secret) := by
  refine ⟨?_, ?_, ?_, ?_, ?_, ?_⟩ <;> intros <;>
    simp_all [get_client_credentials, dict_get]

/-- Witness for claim C10 at concrete dicts: the auth-fields client id
wins over the decrypted-credential one, and the secret, present only in
the decrypted credential, comes from there. -/
theorem client_credentials_auth_fields_win_witness :
    (get_client_credentials
        { client_id := some "cfg_id", client_secret := some "cfg_secret",
          auth_type := "oauth2", content_type := "ct",
          client_credential_location := "body", backend_url := "u" }
        (some [("client_id", some "auth_id")])
        (some [("client_id", some "dec_id"), ("client_secret", some "dec_secret")])).1 =
      some "auth_id" ∧
    (get_client_credentials
        { client_id := some "cfg_id", client_secret := some "cfg_secret",
          auth_type := "oauth2", content_type := "ct",
          client_credential_location := "body", backend_url := "u" }
        (some [("client_id", some "auth_id")])
        (some [("client_id", some "dec_id"), ("client_secret", some "dec_secret")])).2 =
      some "dec_secret" := by
  constructor
  · exact (client_credentials_auth_fields_win
      { client_id := some "cfg_id", client_secret := some "cfg_secret",
        auth_type := "oauth2", content_type := "ct",
        client_credential_location := "body", backend_url := "u" }
      [("client_id", some "auth_id")]
      [("client_id", some "dec_id"), ("client_secret", some "dec_secret")]).1
      (some "auth_id") (by decide)
  · exact (client_credentials_auth_fields_win
      { client_id := some "cfg_id", client_secret := some "cfg_secret",
        auth_type := "oauth2", content_type := "ct",
        client_credential_location := "body", backend_url := "u" }
      [("client_id", some "auth_id")]
      [("client_id", some "dec_id"), ("client_secret", some "dec_secret")]).2.2.2.1
      (some "dec_secret") (by decide) (by decide)

/-- Claim C9: the factory builds a token provider exactly when the
source's auth type is `oauth2_with_refresh` or
`oauth2_with_refresh_rotating`; for every other auth type no provider is
built and the source credentials are the validated auth config (when the
source declares a config class) or the raw decrypted credential. -/
theorem token_provider_only_for_refresh_auth (m : SourceModel) (ac : Nat) (sc : Connection)
    (d : CredDict) (wl : Option WhiteLabel) (gvt : TokenProvider → String) :
    ((create_token_provider_if_needed m ac sc d wl).isSome ↔
      m.auth_type = AuthType.oauth2_with_refresh ∨
      m.auth_type = AuthType.oauth2_with_refresh_rotating) ∧
    (m.auth_type ≠ AuthType.oauth2_with_refresh →
      m.auth_type ≠ AuthType.oauth2_with_refresh_rotating →
      create_token_provider_if_needed m ac sc d wl = none ∧
      get_source_credentials gvt (create_token_provider_if_needed m ac sc d wl) m d =
        (match m.auth_config_class with
          | some cls => SourceCredentials.auth_config cls d
          | none => SourceCredentials.raw d)) := by
  obtain ⟨sn, ty, acc⟩ := m
  cases ty <;> cases acc <;>
    simp [create_token_provider_if_needed, get_source_credentials]

/-- Witness for claim C9 at an `api_key` source without an auth config
class: no provider is built and the raw decrypted credential flows to the
source. -/
theorem token_provider_only_for_refresh_auth_witness :
    create_token_provider_if_needed
        { short_name := "stripe", auth_type := AuthType.api_key, auth_config_class := none }
        1 { id := 1, short_name := "stripe", integration_credential_id := none } [] none =
      none ∧
    get_source_credentials (fun _ => "tok")
        (create_token_provider_if_needed
          { short_name := "stripe", auth_type := AuthType.api_key, auth_config_class := none }
          1 { id := 1, short_name := "stripe", integration_credential_id := none } [] none)
        { short_name := "stripe", auth_type := AuthType.api_key, auth_config_class := none }
        [] =
      SourceCredentials.raw [] := by
  have h := (token_provider_only_for_refresh_auth
    { short_name := "stripe", auth_type := AuthType.api_key, auth_config_class := none }
    1 { id := 1, short_name := "stripe", integration_credential_id := none } [] none
    (fun _ => "tok")).2 (by decide) (by decide)
  exact ⟨h.1, h.2⟩

/-- Claim C2: when `refresh_access_token` succeeds against an integration
whose auth type is `oauth2_with_refresh_rotating`, the newly issued
refresh token is persisted — re-encrypted into the stored integration
credential — in the database state the call returns together with the new
access token (state passing orders the write before the return); for any
non-rotating auth type the returned database is unchanged. -/
theorem rotating_refresh_persists_new_token {γ : Type} (ed : EncDec γ) (db db' : Db γ)
    (cfgs : List (String × IntegrationConfig)) (short_name : String)
    (connection_id : Nat) (cred : CredDict) (wl : Option WhiteLabel)
    (resp resp' : OAuth2TokenResponse) (cfg : IntegrationConfig)
    (hcfg : alist_get cfgs short_name = some cfg)
    (hround : ∀ c, ed.decrypt (ed.encrypt c) = c)
    (hok : refresh_access_token ed db cfgs short_name connection_id cred wl
        (Except.ok resp) = Except.ok (db', resp')) :
    resp' = resp ∧
    (cfg.auth_type = "oauth2_with_refresh_rotating" →
      ∃ connection credential_id,
        alist_get db.connections connection_id = some connection ∧
        connection.integration_credential_id = some credential_id ∧
        ∃ stored, alist_get db'.integration_credentials credential_id = some stored ∧
          alist_get (ed.decrypt stored.encrypted_credentials) "refresh_token" =
            some resp.refresh_token) ∧
    (cfg.auth_type ≠ "oauth2_with_refresh_rotating" → db' = db) := by
  rcases hrt : get_refresh_token cred with e | t
  · simp [refresh_access_token, hrt] at hok
  · simp only [refresh_access_token, hrt, get_integration_config, hcfg] at hok
    unfold handle_token_response at hok
    split at hok
    · rename_i hat
      split at hok
      · simp at hok
      · rename_i connection hconn
        split at hok
        · simp at hok
        · rename_i credential_id hcid
          split at hok
          · simp at hok
          · rename_i icred hic
            simp only [Except.ok.injEq, Prod.mk.injEq] at hok
            obtain ⟨hdb, hresp⟩ := hok
            refine ⟨hresp.symm, fun _ => ?_, fun hne => absurd hat hne⟩
            refine ⟨connection, credential_id, hconn, hcid, ?_⟩
            refine ⟨⟨ed.encrypt (alist_set (ed.decrypt icred.encrypted_credentials)
              "refresh_token" resp.refresh_token)⟩, ?_, ?_⟩
            · rw [← hdb]
              exact alist_get_set_self _ _ _
            · rw [hround]
              exact alist_get_set_self _ _ _
    · rename_i hat
      simp only [Except.ok.injEq, Prod.mk.injEq] at hok
      obtain ⟨hdb, hresp⟩ := hok
      exact ⟨hresp.symm, fun h => absurd h hat, fun _ => hdb.symm⟩

/-- Witness for claim C2: a concrete rotating-refresh flow with identity
encryption stores the newly issued refresh token in the returned
database. -/
theorem rotating_refresh_persists_new_token_witness :
    ∃ connection credential_id,
      alist_get ex_db.connections 1 = some connection ∧
      connection.integration_credential_id = some credential_id ∧
      ∃ stored, alist_get ex_db_after.integration_credentials credential_id = some stored ∧
        alist_get (id_encdec.decrypt stored.encrypted_credentials) "refresh_token" =
          some ex_resp.refresh_token :=
  (rotating_refresh_persists_new_token id_encdec ex_db ex_db_after
    [("asana", ex_cfg_rotating)] "asana" 1 ex_cred none ex_resp ex_resp ex_cfg_rotating
    rfl (fun _ => rfl) rfl).2.1 rfl

/-- Claim C5 (failing case): with a database whose destination connection
exists but whose destination model record (by short name) is missing,
`_create_destination_instances` surfaces the pydantic validation error
raised by `Destination.model_validate(None)` — not the typed not-found
error, whose raise sits unreachably after the `model_validate` call. -/
theorem destination_model_missing_is_validation_error :
    create_destination_instances ex_c5_db ex_c5_sync 1 =
      Except.error
        (FactoryError.validation_error "Destination.model_validate received None") :=
  rfl

theorem wait_for_running_jobs_all_running (sr : Nat → Bool) (iters : Nat) :
    ∀ tw, (∀ j, j < iters → sr (tw + wait_interval * (j + 1)) = true) →
      wait_for_running_jobs sr iters tw =
        ((List.range iters).map (fun i => JobEvent.heartbeat_waiting (tw + wait_interval * i)),
         none) := by
  induction iters with
  | zero => intro tw _; simp [wait_for_running_jobs]
  | succ n ih =>
    intro tw h
    have h0 : sr (tw + wait_interval) = true := by
      have := h 0 (Nat.succ_pos n)
      simpa using this
    have hrest : ∀ j, j < n → sr (tw + wait_interval + wait_interval * (j + 1)) = true := by
      intro j hj
      have hx := h (j + 1) (by omega)
      have harith : tw + wait_interval * (j + 1 + 1) =
          tw + wait_interval + wait_interval * (j + 1) := by ring
      rw [harith] at hx
      exact hx
    simp only [wait_for_running_jobs, h0, if_true]
    rw [ih (tw + wait_interval) hrest]
    rw [List.range_succ_eq_map, List.map_cons, List.map_map]
    simp only [Nat.mul_zero, Nat.add_zero]
    refine Prod.ext ?_ rfl
    show JobEvent.heartbeat_waiting tw :: _ = JobEvent.heartbeat_waiting tw :: _
    congr 1
    apply List.map_congr_left
    intro i _
    simp only [Function.comp_apply]
    congr 1
    rw [Nat.succ_eq_add_one]
    ring

theorem wait_for_running_jobs_success (sr : Nat → Bool) (iters : Nat) :
    ∀ tw t, (wait_for_running_jobs sr iters tw).2 = some t →
      sr t = false ∧ t ≤ tw + wait_interval * iters := by
  induction iters with
  | zero => intro tw t h; simp [wait_for_running_jobs] at h
  | succ n ih =>
    intro tw t h
    cases hr : sr (tw + wait_interval) with
    | true =>
      simp only [wait_for_running_jobs, hr, if_true] at h
      obtain ⟨hf, hle⟩ := ih (tw + wait_interval) t h
      refine ⟨hf, ?_⟩
      simp only [wait_interval] at hle ⊢
      omega
    | false =>
      simp only [wait_for_running_jobs, hr] at h
      simp at h
      subst h
      refine ⟨hr, ?_⟩
      simp only [wait_interval]
      omega

theorem wait_for_running_jobs_events (sr : Nat → Bool) (iters : Nat) :
    ∀ tw, ∃ k, k ≤ iters ∧ (1 ≤ k ∨ iters = 0) ∧
      (wait_for_running_jobs sr iters tw).1 =
        (List.range k).map (fun i => JobEvent.heartbeat_waiting (tw + wait_interval * i)) := by
  induction iters with
  | zero =>
    intro tw
    exact ⟨0, Nat.le_refl 0, Or.inr rfl, by simp [wait_for_running_jobs]⟩
  | succ n ih =>
    intro tw
    cases hr : sr (tw + wait_interval) with
    | false =>
      refine ⟨1, by omega, Or.inl (Nat.le_refl 1), ?_⟩
      simp [wait_for_running_jobs, hr, List.range_succ]
    | true =>
      obtain ⟨k, hk, _, hev⟩ := ih (tw + wait_interval)
      refine ⟨k + 1, by omega, Or.inl (by omega), ?_⟩
      simp only [wait_for_running_jobs, hr, if_true]
      rw [hev]
      rw [List.range_succ_eq_map, List.map_cons, List.map_map]
      simp only [Nat.mul_zero, Nat.add_zero]
      congr 1
      apply List.map_congr_left
      intro i _
      simp only [Function.comp_apply]
      congr 1
      rw [Nat.succ_eq_add_one]
      ring

/-- Claim C4: with a PENDING/IN_PROGRESS job present and
`force_full_sync = False`, `create_sync_job_activity` raises and creates
no job; a job is ever created only after a check found no running job;
with `force_full_sync = True` and jobs that never clear within the
one-hour budget it raises the timeout error after 120 half-minute
heartbeats; and in the forced waiting case the emitted events are
heartbeats every 30 seconds (at 0, 30, 60, …), possibly followed by the
single job creation. -/
theorem create_sync_job_overlap_guard (sr : Nat → Bool) :
    (sr 0 = true →
      create_sync_job_activity sr false =
        ([], Except.error
          "Sync already has a running job. Skipping this scheduled run to avoid conflicts.")) ∧
    (∀ force, JobEvent.create_job ∈ (create_sync_job_activity sr force).1 →
      ∃ t, t ≤ max_wait_time ∧ sr t = false) ∧
    ((∀ t, t ≤ max_wait_time → sr t = true) →
      create_sync_job_activity sr true =
        ((List.range 120).map (fun i => JobEvent.heartbeat_waiting (wait_interval * i)),
         Except.error "Timeout waiting for running jobs to complete after 3600s")) ∧
    (sr 0 = true → ∃ k, 1 ≤ k ∧ k ≤ 120 ∧
      ((create_sync_job_activity sr true).1 =
          (List.range k).map (fun i => JobEvent.heartbeat_waiting (wait_interval * i)) ∨
       (create_sync_job_activity sr true).1 =
          (List.range k).map (fun i => JobEvent.heartbeat_waiting (wait_interval * i)) ++
            [JobEvent.create_job])) := by
  have hiters : max_wait_time / wait_interval = 120 := by
    simp [max_wait_time, wait_interval]
  refine ⟨?_, ?_, ?_, ?_⟩
  · intro h0
    simp [create_sync_job_activity, h0]
  · intro force hmem
    cases h0 : sr 0 with
    | false => exact ⟨0, Nat.zero_le _, h0⟩
    | true =>
      cases force with
      | false => simp [create_sync_job_activity, h0] at hmem
      | true =>
        rcases hw : (wait_for_running_jobs sr (max_wait_time / wait_interval) 0).2 with _ | t
        · simp only [create_sync_job_activity, h0, if_true, hw] at hmem
          obtain ⟨k, _, _, hev⟩ := wait_for_running_jobs_events sr (max_wait_time / wait_interval) 0
          rw [hev] at hmem
          obtain ⟨i, _, hcontra⟩ := List.mem_map.mp hmem
          exact absurd hcontra (by simp)
        · obtain ⟨hf, hle⟩ := wait_for_running_jobs_success sr (max_wait_time / wait_interval) 0 t hw
          refine ⟨t, ?_, hf⟩
          rw [hiters] at hle
          simp only [wait_interval, max_wait_time] at hle ⊢
          omega
  · intro hall
    have h0 : sr 0 = true := hall 0 (Nat.zero_le _)
    have hrun : ∀ j, j < max_wait_time / wait_interval →
        sr (0 + wait_interval * (j + 1)) = true := by
      intro j hj
      rw [hiters] at hj
      apply hall
      simp only [wait_interval, max_wait_time]
      omega
    have hw := wait_for_running_jobs_all_running sr (max_wait_time / wait_interval) 0 hrun
    rw [hiters] at hw
    simp [create_sync_job_activity, h0, hiters, hw]
  · intro h0
    obtain ⟨k, hk, hk1, hev⟩ := wait_for_running_jobs_events sr (max_wait_time / wait_interval) 0
    rw [hiters] at hk hk1
    have hk1' : 1 ≤ k := by
      rcases hk1 with h | h
      · exact h
      · omega
    refine ⟨k, hk1', hk, ?_⟩
    rcases hw : (wait_for_running_jobs sr (max_wait_time / wait_interval) 0).2 with _ | t
    · left
      simp only [create_sync_job_activity, h0, if_true, hw]
      rw [hev]
      simp
    · right
      simp only [create_sync_job_activity, h0, if_true, hw]
      rw [hev]
      simp

/-- Witness for claim C4: when the running jobs never clear, the forced
full sync times out after 120 heartbeats with the timeout error. -/
theorem create_sync_job_overlap_guard_witness :
    create_sync_job_activity (fun _ => true) true =
      ((List.range 120).map (fun i => JobEvent.heartbeat_waiting (wait_interval * i)),
       Except.error "Timeout waiting for running jobs to complete after 3600s") :=
  (create_sync_job_overlap_guard (fun _ => true)).2.2.1 (fun _ _ => rfl)

theorem download_chunks_within_limit (max_size : Nat) (stream : List (List Nat)) :
    ∀ ds written, ds + (stream.map List.length).sum ≤ max_size →
      download_chunks max_size ds written stream =
        DownloadResult.completed (ds + (stream.map List.length).sum) (written ++ stream.join) := by
  induction stream with
  | nil => intro ds written _; simp [download_chunks]
  | cons chunk rest ih =>
    intro ds written h
    have hstep : ¬ max_size < ds + chunk.length := by
      simp only [List.map_cons, List.sum_cons] at h
      omega
    simp only [download_chunks, if_neg hstep]
    rw [ih (ds + chunk.length) (written ++ chunk) (by simp at h ⊢; omega)]
    simp only [List.map_cons, List.sum_cons, List.join_cons]
    congr 1
    · omega
    · simp [List.append_assoc]

theorem download_chunks_over_limit (max_size : Nat) (stream : List (List Nat)) :
    ∀ ds written, ds ≤ max_size → max_size < ds + (stream.map List.length).sum →
      ∃ size, download_chunks max_size ds written stream = DownloadResult.exceeded size ∧
        max_size < size := by
  induction stream with
  | nil => intro ds written hle hgt; simp at hgt; omega
  | cons chunk rest ih =>
    intro ds written hle hgt
    by_cases hstep : max_size < ds + chunk.length
    · exact ⟨ds + chunk.length, by simp [download_chunks, hstep], hstep⟩
    · simp only [download_chunks, if_neg hstep]
      apply ih (ds + chunk.length) (written ++ chunk) (by omega)
      simp only [List.map_cons, List.sum_cons] at hgt
      omega

/-- Claim C6: for an entity with a download URL, when the stream's
cumulative byte count exceeds `max_size`, `handle_file_entity` aborts the
download, leaves no file on disk, records the error message and the
exceeded size (which is above the limit) in the entity's metadata, and
returns the entity with `should_skip = true`; when the stream stays
within the limit it returns the entity with `should_skip = false`,
checksum the digest of the saved bytes, `total_size` equal to the number
of bytes written, and exactly those bytes on disk. -/
theorem file_size_limit_enforced (sha256hex : List Nat → String) (file_uuid : Nat)
    (entity : FileEntity) (stream : List (List Nat)) (max_size : Nat)
    (hurl : ¬(entity.download_url = none ∨ entity.download_url = some "")) :
    (max_size < (stream.map List.length).sum →
      ∃ size, max_size < size ∧
        (handle_file_entity sha256hex file_uuid entity stream max_size).1.should_skip = true ∧
        (handle_file_entity sha256hex file_uuid entity stream max_size).2 = none ∧
        alist_get (handle_file_entity sha256hex file_uuid entity stream max_size).1.metadata
          "error" = some (MetaVal.str "File too large (exceeded limit)") ∧
        alist_get (handle_file_entity sha256hex file_uuid entity stream max_size).1.metadata
          "size_exceeded" = some (MetaVal.num size)) ∧
    ((stream.map List.length).sum ≤ max_size →
      (handle_file_entity sha256hex file_uuid entity stream max_size).1.should_skip = false ∧
      (handle_file_entity sha256hex file_uuid entity stream max_size).1.checksum =
        some (sha256hex stream.join) ∧
      (handle_file_entity sha256hex file_uuid entity stream max_size).1.total_size =
        some stream.join.length ∧
      (handle_file_entity sha256hex file_uuid entity stream max_size).2 =
        some stream.join) := by
  constructor
  · intro hover
    obtain ⟨size, heq, hsz⟩ :=
      download_chunks_over_limit max_size stream 0 [] (Nat.zero_le _) (by omega)
    refine ⟨size, hsz, ?_, ?_, ?_, ?_⟩ <;>
      simp [handle_file_entity, hurl, heq,
        alist_get_set_self, alist_get_set_ne _ "error" "size_exceeded" _ (by decide)]
  · intro hwithin
    have heq := download_chunks_within_limit max_size stream 0 [] (by omega)
    rw [Nat.zero_add, List.nil_append] at heq
    have hlen : (stream.map List.length).sum = stream.join.length := by
      simp [List.length_join]
    rw [hlen] at heq
    refine ⟨?_, ?_, ?_, ?_⟩ <;>
      simp [handle_file_entity, hurl, heq]

/-- Witness for claim C6: a three-byte stream against a two-byte limit is
skipped, and the same stream within a ten-byte limit is checksummed. -/
theorem file_size_limit_enforced_witness :
    (handle_file_entity ex_sha 7 ex_file_entity [[10, 20, 30]] 2).1.should_skip = true ∧
    (handle_file_entity ex_sha 7 ex_file_entity [[10, 20, 30]] 10).1.checksum =
      some (ex_sha [10, 20, 30]) := by
  constructor
  · obtain ⟨size, _, hskip, _⟩ :=
      (file_size_limit_enforced ex_sha 7 ex_file_entity [[10, 20, 30]] 2
        (by simp [ex_file_entity])).1 (by decide)
    exact hskip
  · have h :=
      (file_size_limit_enforced ex_sha 7 ex_file_entity [[10, 20, 30]] 10
        (by simp [ex_file_entity])).2 (by decide)
    simpa using h.2.1

theorem entity_nodes_wired (source_node_id : Nat) (eds : List EntityDefinition) :
    ∀ c, ∀ nd ∈ (entity_nodes_and_edges source_node_id eds c).1,
      nd.type = "entity" ∧
      ({ from_node_id := source_node_id, to_node_id := nd.id } : DagEdgeCreate) ∈
        (entity_nodes_and_edges source_node_id eds c).2.1 := by
  induction eds with
  | nil => intro c nd h; simp [entity_nodes_and_edges] at h
  | cons ed rest ih =>
    intro c nd h
    cases hskip : str_contains_sub ed.name "Workspace" || str_contains_sub ed.name "Comment" with
    | true =>
      simp only [entity_nodes_and_edges, hskip, if_true] at h ⊢
      exact ih (c + 1) nd h
    | false =>
      simp only [entity_nodes_and_edges, hskip, Bool.false_eq_true, if_false,
        List.mem_cons] at h ⊢
      rcases h with h | h
      · subst h
        exact ⟨rfl, Or.inl rfl⟩
      · obtain ⟨hty, hedge⟩ := ih (c + 1) nd h
        exact ⟨hty, Or.inr hedge⟩

/-- Claim C7: in the DAG built by `create_initial_dag`, every node of
type `entity` — the nodes from the source's entity definitions and the
synthetic file entity node alike — has an incoming edge from the source
node and an outgoing edge to the destination node, so every entity node
sits on a source-to-destination path and none is dead. -/
theorem initial_dag_entity_nodes_connected (eds : List EntityDefinition)
    (source_connection_id : Nat) (source_name : String)
    (destination : Option (Nat × String)) :
    ∀ nd ∈ (create_initial_dag eds source_connection_id source_name destination).nodes,
      nd.type = "entity" →
      ({ from_node_id :=
            (create_initial_dag eds source_connection_id source_name destination).source_node_id,
         to_node_id := nd.id } : DagEdgeCreate) ∈
        (create_initial_dag eds source_connection_id source_name destination).edges ∧
      ({ from_node_id := nd.id,
         to_node_id := (create_initial_dag eds source_connection_id source_name
            destination).destination_node_id } : DagEdgeCreate) ∈
        (create_initial_dag eds source_connection_id source_name destination).edges := by
  intro nd hmem htype
  rcases destination with _ | ⟨dcid, dname⟩ <;>
  · simp only [create_initial_dag, List.drop_succ_cons, List.drop_zero,
      List.dropLast_concat] at hmem ⊢
    simp only [List.mem_cons, List.mem_append, List.not_mem_nil, or_false] at hmem
    rcases hmem with hsrc | ((hen | hfile) | hdst)
    · subst hsrc; simp at htype
    · obtain ⟨_, hedge⟩ := entity_nodes_wired 0 eds 1 nd hen
      constructor
      · exact List.mem_append_left _ (List.mem_append_left _ hedge)
      · exact List.mem_append_right _
          (List.mem_map_of_mem _ (List.mem_append_left _ hen))
    · subst hfile
      constructor
      · exact List.mem_append_left _
          (List.mem_append_right _ (List.mem_singleton.mpr rfl))
      · exact List.mem_append_right _
          (List.mem_map_of_mem _ (List.mem_append_right _ (List.mem_singleton.mpr rfl)))
    · subst hdst; simp at htype


/-- Witness for claim C7 on a one-definition source: the `Task` entity
node (id 1) has the edge from the source node (id 0) and the edge to the
destination node (id 3). -/
theorem initial_dag_entity_nodes_connected_witness :
    ({ from_node_id := 0, to_node_id := 1 } : DagEdgeCreate) ∈
      (create_initial_dag [{ id := 5, name := "Task" }] 1 "Asana" none).edges ∧
    ({ from_node_id := 1, to_node_id := 3 } : DagEdgeCreate) ∈
      (create_initial_dag [{ id := 5, name := "Task" }] 1 "Asana" none).edges := by
  have h := initial_dag_entity_nodes_connected [{ id := 5, name := "Task" }] 1 "Asana" none
    { id := 1, type := "entity", name := "Task", connection_id := none,
      entity_definition_id := some 5, config_is_file := false }
    (by decide) rfl
  exact ⟨h.1, h.2⟩


/-- Witness for claim C1 at two elapsed heartbeats and a concrete reason:
both cancellation paths leave the job `CANCELLED`. -/
theorem run_sync_cancellation_witness :
    (run_sync_activity (SyncTaskOutcome.cancelled_after 2)).1 = SyncJobStatus.cancelled ∧
    (mark_sync_job_cancelled_activity (some "user cancelled")).1 = SyncJobStatus.cancelled :=
  ⟨(run_sync_cancellation_leaves_job_cancelled 2 (some "user cancelled")).1,
   (run_sync_cancellation_leaves_job_cancelled 2 (some "user cancelled")).2.2.2.2.1⟩

/-- Witness for claim C3: three timeouts before completion give exactly
three heartbeats after the task start. -/
theorem run_sync_heartbeat_trace_witness :
    (run_sync_activity (SyncTaskOutcome.completes 3 SyncJobStatus.completed)).2.1 =
      ActivityEvent.start_sync_task :: List.replicate 3 ActivityEvent.heartbeat :=
  (run_sync_heartbeat_trace 3 SyncJobStatus.completed).1

/-- Witness for claim C8 at a concrete job id. -/
theorem workflow_id_deterministic_witness :
    run_workflow_id "123e4567" = cancel_workflow_id "123e4567" :=
  (workflow_id_deterministic "123e4567").1

end Airweave
